import Mathlib

/-!
Verification development for the CityBuilder metrics-to-layout generator
(`evolve.py`).  The Python source is shallowly embedded below: Python dicts
become insertion-ordered association lists, machine floats become exact
rationals `ℚ`, fallible dictionary accesses (`n["key"]`) become `Except Unit`
computations, and every call into Python's `random` module is replaced by an
oracle field of an explicit `Rng` record, so that theorems quantify over all
possible random draws.  Python's per-process salted `hash` builtin is likewise
passed in as an oracle `pyHash : String → Int`, and `datetime.now()` as a
`now : String` parameter.
-/

namespace CityBuilder

/-- A raw metric entry as found in the input mapping: all four dictionary keys
(`name`, `type`, `complexity`, `file`) may be absent. -/
structure RawEntry where
  name : Option String
  type : Option String
  complexity : Option Int
  file : Option String
deriving Repr, DecidableEq

/-- A top-level value of the input mapping: either a list of metric entries or
some non-list scalar (whose attempted `nodes.extend` in the API branch raises
a `TypeError` in Python, modelled as `Except.error`). -/
inductive Value where
  | list (entries : List RawEntry)
  | scalar
deriving Repr, DecidableEq

/-- The input `data` dict, modelled as an insertion-ordered association list. -/
abbrev InputData := List (String × Value)

/-- Line 112 of `evolve.py`: `isinstance(data, dict) and any(isinstance(v, list)
for v in data.values())` — the input is treated as the API crawler format iff
some top-level value is a list. -/
def isApiFormat (data : InputData) : Bool :=
  data.any fun p => match p.2 with
    | .list _ => true
    | .scalar => false

/-- Error-propagating map over a list, modelling a Python loop that raises on
the first failing element. -/
def mapE (f : α → Except Unit β) : List α → Except Unit (List β)
  | [] => .ok []
  | a :: l =>
    match f a with
    | .error e => .error e
    | .ok b =>
      match mapE f l with
      | .error e => .error e
      | .ok bs => .ok (b :: bs)

/-- Lines 114-115: the API-crawler branch extends `nodes` by every value of
the mapping; a non-list value raises (modelled as an error). -/
def flattenApi (data : InputData) : Except Unit (List RawEntry) :=
  match data with
  | [] => .ok []
  | p :: rest =>
    match p.2 with
    | .scalar => .error ()
    | .list es =>
      match flattenApi rest with
      | .error e => .error e
      | .ok ns => .ok (es ++ ns)

/-- Lines 121-126: a raw radon entry, with the documented defaults `anon`,
`func`, `1` and the file path taken from the mapping key. -/
def radonEntry (file : String) (m : RawEntry) : RawEntry :=
  { name := some (m.name.getD "anon")
    type := some (m.type.getD "func")
    complexity := some (m.complexity.getD 1)
    file := some file }

/-- Lines 117-126: the radon fallback branch, which only processes values that
are lists (`isinstance(metrics, list)`). -/
def flattenRadon (data : InputData) : List RawEntry :=
  match data with
  | [] => []
  | p :: rest =>
    match p.2 with
    | .list es => es.map (radonEntry p.1) ++ flattenRadon rest
    | .scalar => flattenRadon rest

/-- Lines 110-126: normalization of either input shape into a flat node list. -/
def flattenNodes (data : InputData) : Except Unit (List RawEntry) :=
  if isApiFormat data then flattenApi data else .ok (flattenRadon data)

/-- A normalized node once the keys demanded unconditionally by
`generate_city` (`complexity` at line 131, `file` at line 136) are known to be
present; `name` and `type` are only demanded for nodes that are actually
placed. -/
structure Node where
  name : Option String
  type : Option String
  complexity : Int
  file : String
deriving Repr, DecidableEq

/-- Extraction of the `complexity` and `file` keys that lines 131 and 136 read
from every node; a missing key raises `KeyError` in Python. -/
def toNode (e : RawEntry) : Except Unit Node :=
  match e.complexity, e.file with
  | some c, some f => .ok ⟨e.name, e.type, c, f⟩
  | _, _ => .error ()

/-- Python's `str.split('/')` on the character list of a string (auxiliary:
`cur` holds the current segment reversed). -/
def splitSeg : List Char → List Char → List String
  | [], cur => [⟨cur.reverse⟩]
  | c :: cs, cur =>
    if c = '/' then ⟨cur.reverse⟩ :: splitSeg cs [] else splitSeg cs (c :: cur)

/-- Python's `file_path.split('/')`: always returns at least one segment
(`"".split('/') == ['']`). -/
def pySplitSlash (s : String) : List String := splitSeg s.data []

/-- Line 136: `n["file"].split('/')[0]`, the district key of a node. -/
def firstSeg (s : String) : String := (pySplitSlash s).headD ""

/-- Python's `districts[repo].append(n)` / fresh-key insertion on an
insertion-ordered dict: append to the unique entry with this key, else add a
fresh entry at the end. -/
def insertNode : List (String × List Node) → String → Node → List (String × List Node)
  | [], repo, n => [(repo, [n])]
  | p :: rest, repo, n =>
    if p.1 = repo then (p.1, p.2 ++ [n]) :: rest
    else p :: insertNode rest repo n

/-- Lines 134-139: group the nodes by the first path segment of their file,
preserving first-seen order of the district keys. -/
def groupByDistrict (nodes : List Node) : List (String × List Node) :=
  nodes.foldl (fun acc n => insertNode acc (firstSeg n.file) n) []

/-- A 2D anchor coordinate. -/
structure Pt where
  x : ℚ
  z : ℚ
deriving Repr, DecidableEq

/-- Lines 142-145: the fixed pool of nine district anchor centers. -/
def district_centers : List Pt :=
  [⟨-150, -150⟩, ⟨150, -150⟩, ⟨-150, 150⟩, ⟨150, 150⟩,
   ⟨0, 0⟩, ⟨-300, 0⟩, ⟨300, 0⟩, ⟨0, -300⟩, ⟨0, 300⟩]

/-- Line 131: the mean complexity, computed once over the whole normalized
dataset. -/
def avgOf (nodes : List Node) : ℚ :=
  ((nodes.map fun n => n.complexity).sum : ℚ) / (nodes.length : ℚ)

/-- `math.ceil(math.sqrt n)` on a natural number, line 154. -/
def ceilSqrt (n : Nat) : Nat :=
  if Nat.sqrt n * Nat.sqrt n = n then Nat.sqrt n else Nat.sqrt n + 1

/-- Clamp a rational into `[0, 1]`; used to turn an arbitrary oracle draw into
a fraction. -/
def clamp01 (q : ℚ) : ℚ := max 0 (min 1 q)

/-- `random.uniform(a, b)`: an arbitrary value of `[a, b]`, selected by the
oracle draw `o`. -/
def uniformIn (a b o : ℚ) : ℚ := a + (b - a) * clamp01 o

/-- `random.randint(a, b)`: an arbitrary integer of `[a, b]`, selected by the
oracle draw `o`. -/
def randintIn (a b : Int) (o : Nat) : Int := a + (o % (b - a + 1).toNat : Nat)

/-- `random.random()`: an arbitrary fraction of `[0, 1]`. -/
def randFrac (o : ℚ) : ℚ := clamp01 o

/-- `random.choice(xs)`: an arbitrary element of `xs`, selected by the oracle
draw `o` (`dflt` is returned only for an empty list, which never occurs). -/
def pyChoice (xs : List α) (dflt : α) (o : Nat) : α := xs.getD (o % xs.length) dflt

/-- Python's `int()` truncation toward zero on a rational. -/
def truncQ (q : ℚ) : Int := if 0 ≤ q then ⌊q⌋ else ⌈q⌉

/-- The oracle record standing in for Python's global `random` stream: one
oracle function per call site, indexed by district/member (or road/vehicle)
position, so that every theorem quantifies over all possible draws. -/
structure Rng where
  jitterX : Nat → Nat → ℚ
  jitterZ : Nat → Nat → ℚ
  styleO : Nat → Nat → Nat
  roofO : Nat → Nat → Nat
  winCountO : Nat → Nat → Nat
  winPatO : Nat → Nat → Nat
  litO : Nat → Nat → ℚ
  roomsO : Nat → Nat → Nat
  roomKO : Nat → Nat → Nat
  roomSampleO : Nat → Nat → Nat
  furnO : Nat → Nat → ℚ
  widthO : Nat → Nat → ℚ
  depthO : Nat → Nat → ℚ
  upgradesO : Nat → Nat → Nat
  gardenTrialO : Nat → Nat → ℚ
  gardenDXO : Nat → Nat → ℚ
  gardenDZO : Nat → Nat → ℚ
  gardenSizeO : Nat → Nat → ℚ
  gardenFolO : Nat → Nat → Nat
  gardenTypeO : Nat → Nat → Nat
  bbTrialO : Nat → Nat → ℚ
  bbDXO : Nat → Nat → ℚ
  bbSizeO : Nat → Nat → ℚ
  bbNeonO : Nat → Nat → Nat
  trafficO : Nat → Nat
  vehPosO : Nat → Nat → ℚ
  vehSpeedO : Nat → Nat → ℚ
  vehTypeO : Nat → Nat → Nat
  vehDirO : Nat → Nat → Nat
  popO : Nat

/-- Lines 80-89 of `get_address`: the named-district lookup table. -/
def knownDistricts : List (String × String) :=
  [("autonomous-zoo", "Genome Sector"),
   ("autonomous-zoo-expansion", "Evolution Heights"),
   ("langtons-ant", "The Colony"),
   ("prime-spiral", "Ulam Plaza"),
   ("Quine-Garden", "Recursive Gardens"),
   ("game-of-life", "Conway Commons"),
   ("CityBuilder", "Core Architecture Zone"),
   ("procedural-city-builder", "Core Architecture Zone")]

/-- Python's `str.replace('-', ' ')` (single-character replacement). -/
def pyReplaceDash (s : String) : String :=
  ⟨s.data.map fun c => if c = '-' then ' ' else c⟩

/-- Auxiliary for `str.title()`: `prevAlpha` records whether the previous
character was alphabetic. -/
def pyTitleAux : List Char → Bool → List Char
  | [], _ => []
  | c :: cs, prevAlpha =>
    if c.isAlpha then
      (if prevAlpha then c.toLower else c.toUpper) :: pyTitleAux cs true
    else
      c :: pyTitleAux cs false

/-- Python's `str.title()` on ASCII strings. -/
def pyTitle (s : String) : String := ⟨pyTitleAux s.data false⟩

/-- Line 94: the fixed street-name pool. -/
def streets : List String :=
  ["Mainframe Ave", "Kernel Street", "Logic Lane", "Process Parkway",
   "Silicon Way", "Bit Blvd", "Data Drive"]

/-- Lines 77-78: `parts[0] if len(parts) > 1 else "Mainframe"`. -/
def addressProject (file_path : String) : String :=
  let parts := pySplitSlash file_path
  if parts.length > 1 then parts.headD "" else "Mainframe"

/-- Line 91: the human-readable district name of a project, falling back to
`"<Title Cased Project> District"`. -/
def addressDistrict (project : String) : String :=
  match knownDistricts.lookup project with
  | some d => d
  | none => pyTitle (pyReplaceDash project) ++ " District"

/-- Line 95: `streets[abs(hash(file_path)) % len(streets)]`, parametrized by
the process's `hash` function. -/
def streetOf (pyHash : String → Int) (file_path : String) : String :=
  (streets.getD ((pyHash file_path).natAbs % streets.length)) ""

/-- Line 98: `f"Block {chr(65 + (abs(int(x)) % 26))}"`. -/
def blockOf (x : ℚ) : String :=
  "Block " ++ String.singleton (Char.ofNat (65 + (truncQ x).natAbs % 26))

/-- Lines 75-100: `get_address`, the full formatted address string. -/
def get_address (pyHash : String → Int) (file_path : String) (x _z : ℚ) : String :=
  addressDistrict (addressProject file_path) ++ " // " ++
    streetOf pyHash file_path ++ " // " ++ blockOf x

/-- The `windows` sub-record of a building (lines 176-180). -/
structure Windows where
  count : Int
  pattern : String
  lit_percent : ℚ
deriving Repr, DecidableEq

/-- The `interiors` sub-record of a building (lines 183-189). -/
structure Interiors where
  floors : Int
  rooms_per_floor : Int
  room_types : List String
  furniture_density : ℚ
deriving Repr, DecidableEq

/-- One entry of the output `buildings` collection (lines 191-208).  The
output field `type` holds the size label; the node's own kind only influences
`color`. -/
structure Building where
  x : ℚ
  z : ℚ
  width : ℚ
  height : ℚ
  depth : ℚ
  color : String
  style : String
  roof_decor : Option String
  name : String
  type : String
  complexity : Int
  file : String
  address : String
  windows : Windows
  upgrades : Int
  interiors : Interiors
deriving Repr, DecidableEq

/-- One entry of the output `gardens` collection (lines 212-218). -/
structure Garden where
  x : ℚ
  z : ℚ
  size : ℚ
  foliage : Int
  type : String
deriving Repr, DecidableEq

/-- One entry of the output `billboards` collection (lines 222-228). -/
structure Billboard where
  x : ℚ
  z : ℚ
  text : String
  size : ℚ
  neon : Bool
deriving Repr, DecidableEq

/-- One entry of the output `roads` collection (lines 240-249).  The source
stores `l = math.sqrt(dx**2 + dz**2)`; since that square root is irrational
for diagonal anchor pairs, the model stores the squared length `lsq` and the
highway threshold `length > 200` becomes `lsq > 200^2 = 40000` (equivalent for
nonnegative lengths).  No claim inspects the length's value itself. -/
structure Road where
  x : ℚ
  z : ℚ
  w : ℚ
  lsq : ℚ
  vertical : Bool
  lights : Bool
  traffic : Nat
  type : String
deriving Repr, DecidableEq

/-- One entry of the output `vehicles` collection (lines 254-260). -/
structure Vehicle where
  road_id : Nat
  position : ℚ
  speed : ℚ
  type : String
  direction : Int
deriving Repr, DecidableEq

/-- The `stats` record (lines 263-273). -/
structure Stats where
  urban_density : String
  district_count : Nat
  traffic_level : Nat
  green_space : Nat
  mainframe_health : String
  system_load : String
  last_evolution : String
  population : Int
  happiness : Int
deriving Repr, DecidableEq

/-- The complete output document (lines 275-282).  The zero-record early
return at line 129 yields a literally empty `stats` dict, modelled as
`none`; the populated dict of lines 263-273 is `some s`. -/
structure CityDoc where
  buildings : List Building
  gardens : List Garden
  roads : List Road
  vehicles : List Vehicle
  billboards : List Billboard
  stats : Option Stats
deriving Repr, DecidableEq

/-- Line 129: the minimal document returned for zero normalized records. -/
def emptyDoc : CityDoc := ⟨[], [], [], [], [], none⟩

/-- Line 168: the style pool. -/
def style_options : List String :=
  ["modern", "industrial", "cyberpunk", "art_deco", "brutalist", "futuristic"]

/-- Line 171: the roof-decoration pool (includes Python `None`). -/
def roof_options : List (Option String) :=
  [some "helipad", some "antenna_array", some "billboard", some "roof_garden",
   some "solar_panels", some "water_tank", some "neon_sign", none]

/-- Line 187: the room-type pool for `random.sample`. -/
def room_pool : List String :=
  ["office", "server_room", "lobby", "conference", "elevator"]

/-- Line 187: `random.sample(room_pool, k)` — `k` distinct elements, the
particular subset selected by the oracle draw `o` (modelled as a rotation
followed by a prefix). -/
def sampleRooms (k o : Nat) : List String := (room_pool.rotate o).take k

/-- Lines 157-228: processing of one placed node — the building together with
its optional garden and billboard.  `d` is the district index, `ctr` the
district center, `cols` the grid width, `i` the member index.  The raw
accesses `n["type"]` (line 173) and `n["name"]` (line 200) raise on a missing
key. -/
def mkNodeOut (rng : Rng) (pyHash : String → Int) (avg : ℚ) (d : Nat) (ctr : Pt)
    (cols : Nat) (i : Nat) (n : Node) :
    Except Unit (Building × Option Garden × Option Billboard) :=
  match n.name, n.type with
  | some name, some ty =>
    let row := i / cols
    let col := i % cols
    let spacing : ℚ := 20
    let x := ctr.x + (col : ℚ) * spacing - ((cols : ℚ) * spacing) / 2 +
      uniformIn (-5) 5 (rng.jitterX d i)
    let z := ctr.z + (row : ℚ) * spacing - ((cols : ℚ) * spacing) / 2 +
      uniformIn (-5) 5 (rng.jitterZ d i)
    let complexity := n.complexity
    let height : ℚ := max 6 ((complexity : ℚ) / avg * 30)
    let style := if complexity > 5 then pyChoice style_options "" (rng.styleO d i)
      else "standard"
    let b : Building :=
      { x := x
        z := z
        width := uniformIn 8 16 (rng.widthO d i)
        height := height
        depth := uniformIn 8 16 (rng.depthO d i)
        color := if complexity > 15 then "#ff4444"
          else if ty = "class" then "#4488ff" else "#888888"
        style := style
        roof_decor := pyChoice roof_options none (rng.roofO d i)
        name := name
        type := if height > 20 then "Skyscraper" else "Building"
        complexity := complexity
        file := n.file
        address := get_address pyHash n.file x z
        windows :=
          { count := randintIn 20 100 (rng.winCountO d i) * complexity
            pattern := pyChoice ["grid", "random", "striped", "diagonal"] ""
              (rng.winPatO d i)
            lit_percent := uniformIn (4/10) (9/10) (rng.litO d i) }
        upgrades := randintIn 0 3 (rng.upgradesO d i)
        interiors :=
          { floors := max 1 (truncQ (height / 5))
            rooms_per_floor := randintIn 4 12 (rng.roomsO d i)
            room_types := sampleRooms (randintIn 2 5 (rng.roomKO d i)).toNat
              (rng.roomSampleO d i)
            furniture_density := uniformIn (3/10) (8/10) (rng.furnO d i) } }
    let g : Option Garden :=
      if randFrac (rng.gardenTrialO d i) < 35/100 then
        some { x := x + uniformIn (-15) 15 (rng.gardenDXO d i)
               z := z + uniformIn (-15) 15 (rng.gardenDZO d i)
               size := uniformIn 10 30 (rng.gardenSizeO d i)
               foliage := randintIn 15 50 (rng.gardenFolO d i)
               type := pyChoice ["park", "fountain", "statue", "plaza"] ""
                 (rng.gardenTypeO d i) }
      else none
    let bb : Option Billboard :=
      if randFrac (rng.bbTrialO d i) < 25/100 ∧ complexity > 5 then
        some { x := x + uniformIn (-10) 10 (rng.bbDXO d i)
               z := z - 10
               text := name ++ " Sector"
               size := uniformIn 5 10 (rng.bbSizeO d i)
               neon := pyChoice [true, false] false (rng.bbNeonO d i) }
      else none
    .ok (b, g, bb)
  | _, _ => .error ()

/-- Lines 154-228: processing of one placed district `d` with member list
`ms`: grid width from `ceil(sqrt(len))` and one output triple per member, in
order. -/
def processDistrict (rng : Rng) (pyHash : String → Int) (avg : ℚ) (d : Nat)
    (ms : List Node) :
    Except Unit (List (Building × Option Garden × Option Billboard)) :=
  let cols := ceilSqrt ms.length
  mapE (fun p => mkNodeOut rng pyHash avg d (district_centers.getD d ⟨0, 0⟩) cols p.1 p.2)
    ms.enum

/-- Lines 232-249: road `i` of the network, connecting anchor centers `i` and
`i+1` of the fixed pool (its traffic is `randint(10, 30)`). -/
def mkRoad (rng : Rng) (i : Nat) : Road :=
  let start := district_centers.getD i ⟨0, 0⟩
  let stop := district_centers.getD (i + 1) ⟨0, 0⟩
  let dx := stop.x - start.x
  let dz := stop.z - start.z
  let lsq := dx ^ 2 + dz ^ 2
  { x := start.x
    z := start.z
    w := 6
    lsq := lsq
    vertical := decide (|dz| > |dx|)
    lights := true
    traffic := 10 + rng.trafficO i % 21
    type := if lsq > 40000 then "highway" else "street" }

/-- Lines 231-249: `for i in range(len(district_centers) - 1)` — the road list
is built over the whole fixed anchor pool, independently of how many districts
were placed. -/
def mkRoads (rng : Rng) : List Road :=
  (List.range (district_centers.length - 1)).map (mkRoad rng)

/-- Lines 252-260: exactly `traffic` vehicles per road, bound to the road's
index. -/
def mkVehicles (rng : Rng) (roads : List Road) : List Vehicle :=
  roads.enum.flatMap fun p =>
    (List.range p.2.traffic).map fun k =>
      { road_id := p.1
        position := uniformIn 0 1 (rng.vehPosO p.1 k)
        speed := uniformIn (2/100) (8/100) (rng.vehSpeedO p.1 k)
        type := pyChoice ["car", "truck", "bus", "bike"] "" (rng.vehTypeO p.1 k)
        direction := pyChoice [(1 : Int), -1] 1 (rng.vehDirO p.1 k) }

/-- Lines 230-282: assembly of the final document from the per-node output
triples of the placed districts. -/
def assemble (rng : Rng) (now : String) (nodes : List Node)
    (outs : List (List (Building × Option Garden × Option Billboard))) : CityDoc :=
  let triples := outs.flatten
  let buildings := triples.map fun t => t.1
  let gardens := triples.filterMap fun t => t.2.1
  let billboards := triples.filterMap fun t => t.2.2
  let roads := mkRoads rng
  let vehicles := mkVehicles rng roads
  { buildings := buildings
    gardens := gardens
    roads := roads
    vehicles := vehicles
    billboards := billboards
    stats := some
      { urban_density := toString buildings.length ++ " structures"
        district_count := (groupByDistrict nodes).length
        traffic_level := (roads.map fun r => r.traffic).sum
        green_space := gardens.length
        mainframe_health := if avgOf nodes < 10 then "Stable" else "High Activity"
        system_load := toString (truncQ (avgOf nodes / 20 * 100)) ++ "%"
        last_evolution := now
        population := (buildings.length : Int) * randintIn 50 200 rng.popO
        happiness := truncQ (50 +
          ((gardens.length : ℚ) / ((max 1 buildings.length : Nat) : ℚ)) * 50) } }

/-- Lines 133-282 on already-normalized nodes: group into districts, place the
first nine districts (the `break` at lines 149-150 drops the rest), then build
roads, vehicles and stats. -/
def generate_core (rng : Rng) (pyHash : String → Int) (now : String)
    (nodes : List Node) : Except Unit CityDoc :=
  let districts := groupByDistrict nodes
  let placed := (districts.take district_centers.length).enum
  match mapE (fun p => processDistrict rng pyHash (avgOf nodes) p.1 p.2.2) placed with
  | .error e => .error e
  | .ok outs => .ok (assemble rng now nodes outs)

/-- Lines 102-282: the full generator — normalize either input shape, return
the minimal document on zero records, otherwise extract the unconditionally
required keys and run the core. -/
def generate_city (rng : Rng) (pyHash : String → Int) (now : String)
    (data : InputData) : Except Unit CityDoc :=
  match flattenNodes data with
  | .error e => .error e
  | .ok raw =>
    if raw = [] then .ok emptyDoc
    else
      match mapE toNode raw with
      | .error e => .error e
      | .ok nodes => generate_core rng pyHash now nodes

/-- A trivial oracle record (all draws zero) used to evaluate the generator on
concrete inputs. -/
def rng0 : Rng :=
  { jitterX := fun _ _ => 0, jitterZ := fun _ _ => 0
    styleO := fun _ _ => 0, roofO := fun _ _ => 0
    winCountO := fun _ _ => 0, winPatO := fun _ _ => 0
    litO := fun _ _ => 0, roomsO := fun _ _ => 0
    roomKO := fun _ _ => 0, roomSampleO := fun _ _ => 0
    furnO := fun _ _ => 0, widthO := fun _ _ => 0
    depthO := fun _ _ => 0, upgradesO := fun _ _ => 0
    gardenTrialO := fun _ _ => 0, gardenDXO := fun _ _ => 0
    gardenDZO := fun _ _ => 0, gardenSizeO := fun _ _ => 0
    gardenFolO := fun _ _ => 0, gardenTypeO := fun _ _ => 0
    bbTrialO := fun _ _ => 0, bbDXO := fun _ _ => 0
    bbSizeO := fun _ _ => 0, bbNeonO := fun _ _ => 0
    trafficO := fun _ => 0
    vehPosO := fun _ _ => 0, vehSpeedO := fun _ _ => 0
    vehTypeO := fun _ _ => 0, vehDirO := fun _ _ => 0
    popO := 0 }

/-- A concrete stand-in for one process's salted `hash`. -/
def hash0 : String → Int := fun _ => 0

/-! ### Basic lemmas about the error-propagating map -/

theorem mapE_ok_length {α β : Type} {f : α → Except Unit β} :
    ∀ {l : List α} {res : List β}, mapE f l = .ok res → res.length = l.length := by
  intro l
  induction l with
  | nil =>
    intro res h
    simp only [mapE, Except.ok.injEq] at h
    simp [← h]
  | cons a t ih =>
    intro res h
    simp only [mapE] at h
    cases hfa : f a with
    | error e => rw [hfa] at h; exact absurd h (by simp)
    | ok b =>
      rw [hfa] at h
      cases hmt : mapE f t with
      | error e => rw [hmt] at h; exact absurd h (by simp)
      | ok bs =>
        rw [hmt] at h
        simp only [Except.ok.injEq] at h
        simp [← h, ih hmt]

theorem mapE_ok_mem {α β : Type} {f : α → Except Unit β} :
    ∀ {l : List α} {res : List β}, mapE f l = .ok res →
      ∀ b ∈ res, ∃ a ∈ l, f a = .ok b := by
  intro l
  induction l with
  | nil =>
    intro res h
    simp only [mapE, Except.ok.injEq] at h
    simp [← h]
  | cons a t ih =>
    intro res h
    simp only [mapE] at h
    cases hfa : f a with
    | error e => rw [hfa] at h; exact absurd h (by simp)
    | ok b =>
      rw [hfa] at h
      cases hmt : mapE f t with
      | error e => rw [hmt] at h; exact absurd h (by simp)
      | ok bs =>
        rw [hmt] at h
        simp only [Except.ok.injEq] at h
        intro c hc
        rw [← h] at hc
        rcases List.mem_cons.mp hc with hcb | hcbs
        · exact ⟨a, List.mem_cons_self a t, by rw [hcb]; exact hfa⟩
        · obtain ⟨a2, ha2, hfa2⟩ := ih hmt c hcbs
          exact ⟨a2, List.mem_cons_of_mem a ha2, hfa2⟩

theorem mapE_ok_forall2 {α β : Type} {f : α → Except Unit β} :
    ∀ {l : List α} {res : List β}, mapE f l = .ok res →
      List.Forall₂ (fun a b => f a = .ok b) l res := by
  intro l
  induction l with
  | nil =>
    intro res h
    simp only [mapE, Except.ok.injEq] at h
    rw [← h]
    exact List.Forall₂.nil
  | cons a t ih =>
    intro res h
    simp only [mapE] at h
    cases hfa : f a with
    | error e => rw [hfa] at h; exact absurd h (by simp)
    | ok b =>
      rw [hfa] at h
      cases hmt : mapE f t with
      | error e => rw [hmt] at h; exact absurd h (by simp)
      | ok bs =>
        rw [hmt] at h
        simp only [Except.ok.injEq] at h
        rw [← h]
        exact List.Forall₂.cons hfa (ih hmt)

theorem forall2_sum_map {α β : Type} {R : α → β → Prop} {f : α → Nat} {g : β → Nat}
    (hfg : ∀ a b, R a b → f a = g b) :
    ∀ {l1 : List α} {l2 : List β}, List.Forall₂ R l1 l2 →
      (l1.map f).sum = (l2.map g).sum := by
  intro l1 l2 h
  induction h with
  | nil => rfl
  | cons hab _ ih => simp only [List.map_cons, List.sum_cons, hfg _ _ hab, ih]

/-! ### Lemmas about district grouping -/

theorem insertNode_sumLen (acc : List (String × List Node)) (repo : String) (n : Node) :
    ((insertNode acc repo n).map fun g => g.2.length).sum
      = ((acc.map fun g => g.2.length).sum) + 1 := by
  induction acc with
  | nil => simp [insertNode]
  | cons p rest ih =>
    by_cases h : p.1 = repo
    · simp [insertNode, h]
      omega
    · simp [insertNode, h, ih]
      omega

theorem groupByDistrict_sumLen_aux (l : List Node) :
    ∀ acc : List (String × List Node),
      (((l.foldl (fun acc n => insertNode acc (firstSeg n.file) n) acc).map
        fun g => g.2.length).sum)
      = ((acc.map fun g => g.2.length).sum) + l.length := by
  induction l with
  | nil => intro acc; simp
  | cons n t ih =>
    intro acc
    simp only [List.foldl_cons, ih, insertNode_sumLen, List.length_cons]
    omega

/-- District partitioning is total: the member counts of all groups add up to
the number of records. -/
theorem groupByDistrict_sumLen (nodes : List Node) :
    ((groupByDistrict nodes).map fun g => g.2.length).sum = nodes.length := by
  have h := groupByDistrict_sumLen_aux nodes []
  simpa [groupByDistrict] using h

theorem insertNode_mem_src {acc : List (String × List Node)} {repo : String} {n : Node}
    {g : String × List Node} (hg : g ∈ insertNode acc repo n) :
    ∀ m ∈ g.2, (∃ g2 ∈ acc, m ∈ g2.2) ∨ m = n := by
  induction acc with
  | nil =>
    simp only [insertNode, List.mem_singleton] at hg
    intro m hm
    rw [hg] at hm
    simp only [List.mem_singleton] at hm
    exact Or.inr hm
  | cons p rest ih =>
    simp only [insertNode] at hg
    by_cases h : p.1 = repo
    · rw [if_pos h] at hg
      rcases List.mem_cons.mp hg with hg1 | hg2
      · intro m hm
        rw [hg1] at hm
        rcases List.mem_append.mp hm with hm1 | hm2
        · exact Or.inl ⟨p, List.mem_cons_self p rest, hm1⟩
        · simp only [List.mem_singleton] at hm2
          exact Or.inr hm2
      · intro m hm
        exact Or.inl ⟨g, List.mem_cons_of_mem p hg2, hm⟩
    · rw [if_neg h] at hg
      rcases List.mem_cons.mp hg with hg1 | hg2
      · intro m hm
        rw [hg1] at hm
        exact Or.inl ⟨p, List.mem_cons_self p rest, hm⟩
      · intro m hm
        rcases ih hg2 m hm with ⟨g2, hg2m, hmg2⟩ | heq
        · exact Or.inl ⟨g2, List.mem_cons_of_mem p hg2m, hmg2⟩
        · exact Or.inr heq

theorem groupByDistrict_mem_src_aux (l : List Node) :
    ∀ (acc : List (String × List Node)) (g : String × List Node),
      g ∈ l.foldl (fun acc n => insertNode acc (firstSeg n.file) n) acc →
      ∀ m ∈ g.2, (∃ g2 ∈ acc, m ∈ g2.2) ∨ m ∈ l := by
  induction l with
  | nil =>
    intro acc g hg m hm
    exact Or.inl ⟨g, hg, hm⟩
  | cons n t ih =>
    intro acc g hg m hm
    simp only [List.foldl_cons] at hg
    rcases ih _ g hg m hm with ⟨g2, hg2, hmg2⟩ | hmt
    · rcases insertNode_mem_src hg2 m hmg2 with ⟨g3, hg3, hmg3⟩ | heq
      · exact Or.inl ⟨g3, hg3, hmg3⟩
      · exact Or.inr (heq ▸ List.mem_cons_self n t)
    · exact Or.inr (List.mem_cons_of_mem n hmt)

/-- Every member of a district group is one of the original records. -/
theorem groupByDistrict_mem_src {nodes : List Node} {g : String × List Node}
    (hg : g ∈ groupByDistrict nodes) {m : Node} (hm : m ∈ g.2) : m ∈ nodes := by
  rcases groupByDistrict_mem_src_aux nodes [] g hg m hm with ⟨g2, hg2, _⟩ | h
  · exact absurd hg2 (List.not_mem_nil g2)
  · exact h

theorem insertNode_mem_new (acc : List (String × List Node)) (repo : String) (n : Node) :
    ∃ g ∈ insertNode acc repo n, g.1 = repo ∧ n ∈ g.2 := by
  induction acc with
  | nil => exact ⟨(repo, [n]), by simp [insertNode]⟩
  | cons p rest ih =>
    simp only [insertNode]
    by_cases h : p.1 = repo
    · rw [if_pos h]
      exact ⟨(p.1, p.2 ++ [n]), List.mem_cons_self _ _, h, by simp⟩
    · rw [if_neg h]
      obtain ⟨g, hg, hkey, hmem⟩ := ih
      exact ⟨g, List.mem_cons_of_mem p hg, hkey, hmem⟩

theorem insertNode_mono {acc : List (String × List Node)} {g : String × List Node}
    (hg : g ∈ acc) (repo : String) (n : Node) :
    ∃ g2 ∈ insertNode acc repo n, g2.1 = g.1 ∧ ∀ m ∈ g.2, m ∈ g2.2 := by
  induction acc with
  | nil => exact absurd hg (List.not_mem_nil g)
  | cons p rest ih =>
    simp only [insertNode]
    by_cases h : p.1 = repo
    · rw [if_pos h]
      rcases List.mem_cons.mp hg with hg1 | hg2
      · refine ⟨(p.1, p.2 ++ [n]), List.mem_cons_self _ _, ?_, ?_⟩
        · rw [hg1]
        · intro m hm
          rw [← hg1]
          exact List.mem_append_left _ hm
      · exact ⟨g, List.mem_cons_of_mem _ hg2, rfl, fun m hm => hm⟩
    · rw [if_neg h]
      rcases List.mem_cons.mp hg with hg1 | hg2
      · exact ⟨p, List.mem_cons_self p _, by rw [hg1], by rw [← hg1]; exact fun m hm => hm⟩
      · obtain ⟨g2, hg2m, hkey, hsub⟩ := ih hg2
        exact ⟨g2, List.mem_cons_of_mem p hg2m, hkey, hsub⟩

theorem foldl_insert_keep (l : List Node) :
    ∀ (acc : List (String × List Node)) (g : String × List Node), g ∈ acc →
      ∃ g2 ∈ l.foldl (fun acc n => insertNode acc (firstSeg n.file) n) acc,
        g2.1 = g.1 ∧ ∀ m ∈ g.2, m ∈ g2.2 := by
  induction l with
  | nil => intro acc g hg; exact ⟨g, hg, rfl, fun m hm => hm⟩
  | cons n t ih =>
    intro acc g hg
    simp only [List.foldl_cons]
    obtain ⟨g2, hg2, hkey2, hsub2⟩ := insertNode_mono hg (firstSeg n.file) n
    obtain ⟨g3, hg3, hkey3, hsub3⟩ := ih _ g2 hg2
    exact ⟨g3, hg3, hkey3.trans hkey2, fun m hm => hsub3 m (hsub2 m hm)⟩

theorem groupByDistrict_mem_aux (l : List Node) :
    ∀ (acc : List (String × List Node)) (n : Node), n ∈ l →
      ∃ g ∈ l.foldl (fun acc n => insertNode acc (firstSeg n.file) n) acc,
        g.1 = firstSeg n.file ∧ n ∈ g.2 := by
  induction l with
  | nil => intro acc n hn; exact absurd hn (List.not_mem_nil n)
  | cons a t ih =>
    intro acc n hn
    simp only [List.foldl_cons]
    rcases List.mem_cons.mp hn with hna | hnt
    · obtain ⟨g, hg, hkey, hmem⟩ := insertNode_mem_new acc (firstSeg a.file) a
      obtain ⟨g2, hg2, hkey2, hsub2⟩ := foldl_insert_keep t _ g hg
      refine ⟨g2, hg2, ?_, ?_⟩
      · rw [hkey2, hkey, hna]
      · rw [hna]
        exact hsub2 a hmem
    · exact ih _ n hnt

/-- Every record lands in the group keyed by the first path segment of its
file. -/
theorem groupByDistrict_mem {nodes : List Node} {n : Node} (hn : n ∈ nodes) :
    ∃ g ∈ groupByDistrict nodes, g.1 = firstSeg n.file ∧ n ∈ g.2 :=
  groupByDistrict_mem_aux nodes [] n hn

/-! ### Lemmas about path splitting -/

theorem splitSeg_no_slash :
    ∀ (cs cur : List Char), '/' ∉ cs → splitSeg cs cur = [⟨cur.reverse ++ cs⟩] := by
  intro cs
  induction cs with
  | nil => intro cur _; simp [splitSeg]
  | cons c t ih =>
    intro cur h
    have hc : c ≠ '/' := fun hc => h (hc ▸ List.mem_cons_self c t)
    have ht : '/' ∉ t := fun ht => h (List.mem_cons_of_mem c ht)
    simp only [splitSeg, if_neg (fun hcc => hc hcc)]
    rw [ih (c :: cur) ht]
    simp

/-- A file string with no `/` splits to the single segment equal to itself. -/
theorem pySplitSlash_no_slash (s : String) (h : '/' ∉ s.data) :
    pySplitSlash s = [s] := by
  unfold pySplitSlash
  rw [splitSeg_no_slash s.data [] h]
  simp

/-! ### Inversion lemmas for the generator pipeline -/

theorem generate_city_ok {rng : Rng} {pyHash : String → Int} {now : String}
    {data : InputData} {raw : List RawEntry} {nodes : List Node} {doc : CityDoc}
    (hflat : flattenNodes data = .ok raw)
    (hne : raw ≠ [])
    (hnodes : mapE toNode raw = .ok nodes)
    (hgen : generate_city rng pyHash now data = .ok doc) :
    ∃ outs,
      mapE (fun p => processDistrict rng pyHash (avgOf nodes) p.1 p.2.2)
        ((groupByDistrict nodes).take district_centers.length).enum = .ok outs ∧
      doc = assemble rng now nodes outs := by
  unfold generate_city at hgen
  rw [hflat] at hgen
  dsimp only at hgen
  rw [if_neg hne, hnodes] at hgen
  dsimp only at hgen
  unfold generate_core at hgen
  dsimp only at hgen
  cases hmap : mapE (fun p => processDistrict rng pyHash (avgOf nodes) p.1 p.2.2)
      ((groupByDistrict nodes).take district_centers.length).enum with
  | error e => rw [hmap] at hgen; exact absurd hgen (by simp)
  | ok outs =>
    rw [hmap] at hgen
    dsimp only at hgen
    exact ⟨outs, rfl, ((Except.ok.injEq _ _).mp hgen).symm⟩

theorem generate_city_shape {rng : Rng} {pyHash : String → Int} {now : String}
    {data : InputData} {doc : CityDoc}
    (hgen : generate_city rng pyHash now data = .ok doc) :
    doc = emptyDoc ∨ ∃ nodes outs, doc = assemble rng now nodes outs := by
  unfold generate_city at hgen
  cases hflat : flattenNodes data with
  | error e => rw [hflat] at hgen; exact absurd hgen (by simp)
  | ok raw =>
    rw [hflat] at hgen
    dsimp only at hgen
    by_cases hraw : raw = []
    · rw [if_pos hraw] at hgen
      exact Or.inl ((Except.ok.injEq _ _).mp hgen).symm
    · rw [if_neg hraw] at hgen
      cases hnodes : mapE toNode raw with
      | error e => rw [hnodes] at hgen; exact absurd hgen (by simp)
      | ok nodes =>
        rw [hnodes] at hgen
        dsimp only at hgen
        unfold generate_core at hgen
        dsimp only at hgen
        cases hmap : mapE (fun p => processDistrict rng pyHash (avgOf nodes) p.1 p.2.2)
            ((groupByDistrict nodes).take district_centers.length).enum with
        | error e => rw [hmap] at hgen; exact absurd hgen (by simp)
        | ok outs =>
          rw [hmap] at hgen
          dsimp only at hgen
          exact Or.inr ⟨nodes, outs, ((Except.ok.injEq _ _).mp hgen).symm⟩

/-! ### Per-district and per-node properties -/

theorem processDistrict_length {rng : Rng} {pyHash : String → Int} {avg : ℚ}
    {d : Nat} {ms : List Node}
    {ts : List (Building × Option Garden × Option Billboard)}
    (h : processDistrict rng pyHash avg d ms = .ok ts) : ts.length = ms.length := by
  unfold processDistrict at h
  dsimp only at h
  have := mapE_ok_length h
  simpa using this

theorem mkNodeOut_props {rng : Rng} {pyHash : String → Int} {avg : ℚ} {d : Nat}
    {ctr : Pt} {cols i : Nat} {n : Node} {b : Building} {g : Option Garden}
    {bb : Option Billboard}
    (h : mkNodeOut rng pyHash avg d ctr cols i n = .ok (b, g, bb)) :
    b.complexity = n.complexity ∧
    b.height = max 6 ((n.complexity : ℚ) / avg * 30) ∧
    b.color = (if 15 < n.complexity then "#ff4444"
      else if n.type = some "class" then "#4488ff" else "#888888") ∧
    b.type = (if 20 < b.height then "Skyscraper" else "Building") := by
  unfold mkNodeOut at h
  cases hname : n.name with
  | none => rw [hname] at h; exact absurd h (by simp)
  | some name =>
    cases hty : n.type with
    | none => rw [hname, hty] at h; exact absurd h (by simp)
    | some ty =>
      rw [hname, hty] at h
      dsimp only at h
      simp only [Except.ok.injEq, Prod.mk.injEq] at h
      obtain ⟨hb, -, -⟩ := h
      subst hb
      refine ⟨rfl, rfl, ?_, rfl⟩
      simp only [hty, Option.some.injEq]

theorem assemble_building_src {rng : Rng} {pyHash : String → Int} {now : String}
    {nodes : List Node} {outs : List (List (Building × Option Garden × Option Billboard))}
    {b : Building}
    (houts : mapE (fun p => processDistrict rng pyHash (avgOf nodes) p.1 p.2.2)
      ((groupByDistrict nodes).take district_centers.length).enum = .ok outs)
    (hb : b ∈ (assemble rng now nodes outs).buildings) :
    ∃ n ∈ nodes, ∃ d ctr cols i g bb,
      mkNodeOut rng pyHash (avgOf nodes) d ctr cols i n = .ok (b, g, bb) := by
  have hb2 : b ∈ outs.flatten.map (fun t => t.1) := hb
  obtain ⟨t, ht, hbt⟩ := List.mem_map.mp hb2
  obtain ⟨o, ho, hto⟩ := List.mem_flatten.mp ht
  obtain ⟨p, hp, hpo⟩ := mapE_ok_mem houts o ho
  unfold processDistrict at hpo
  dsimp only at hpo
  obtain ⟨q, hq, hqo⟩ := mapE_ok_mem hpo t hto
  have hq2 : q.2 ∈ p.2.2 := by
    have := List.snd_mem_of_mem_enum (x := q) (by simpa using hq)
    simpa using this
  have hp2 : p.2 ∈ (groupByDistrict nodes).take district_centers.length := by
    have := List.snd_mem_of_mem_enum (x := p) (by simpa using hp)
    simpa using this
  have hp3 : p.2 ∈ groupByDistrict nodes := List.mem_of_mem_take hp2
  have hn : q.2 ∈ nodes := groupByDistrict_mem_src hp3 hq2
  refine ⟨q.2, hn, p.1, district_centers.getD p.1 ⟨0, 0⟩, ceilSqrt p.2.2.length,
    q.1, t.2.1, t.2.2, ?_⟩
  rw [← hbt]
  exact hqo

/-! ### Road and vehicle properties -/

theorem mkRoads_length (rng : Rng) :
    (mkRoads rng).length = district_centers.length - 1 := by
  simp [mkRoads]

theorem mkRoads_get (rng : Rng) (i : Nat) (h : i < (mkRoads rng).length) :
    (mkRoads rng).get ⟨i, h⟩ = mkRoad rng i := by
  simp [mkRoads]

theorem mkVehicles_length (rng : Rng) (roads : List Road) :
    (mkVehicles rng roads).length = (roads.map fun r => r.traffic).sum := by
  unfold mkVehicles
  rw [List.flatMap_def, List.length_flatten, List.map_map]
  have h1 : (List.length ∘ fun p : Nat × Road =>
        (List.range p.2.traffic).map fun k =>
          ({ road_id := p.1
             position := uniformIn 0 1 (rng.vehPosO p.1 k)
             speed := uniformIn (2/100) (8/100) (rng.vehSpeedO p.1 k)
             type := pyChoice ["car", "truck", "bus", "bike"] "" (rng.vehTypeO p.1 k)
             direction := pyChoice [(1 : Int), -1] 1 (rng.vehDirO p.1 k) } : Vehicle))
      = fun p : Nat × Road => p.2.traffic := by
    funext p
    simp
  rw [h1]
  have h2 : roads.enum.map (fun p : Nat × Road => p.2.traffic)
      = (roads.enum.map Prod.snd).map (fun r => r.traffic) := by
    rw [List.map_map]
    rfl
  rw [h2, List.enum_map_snd]

theorem mkVehicles_road_id (rng : Rng) (roads : List Road) :
    ∀ v ∈ mkVehicles rng roads, v.road_id < roads.length := by
  intro v hv
  unfold mkVehicles at hv
  obtain ⟨p, hp, hvp⟩ := List.mem_flatMap.mp hv
  obtain ⟨k, _, hvk⟩ := List.mem_map.mp hvp
  have hlt := List.fst_lt_of_mem_enum hp
  rw [← hvk]
  exact hlt

theorem sum_enumFrom_zero {α : Type} (f : α → Nat) (i : Nat) :
    ∀ (l : List α) (k : Nat), i < k →
      ((l.enumFrom k).map fun p => if p.1 = i then f p.2 else 0).sum = 0 := by
  intro l
  induction l with
  | nil => intro k _; simp
  | cons a t ih =>
    intro k hik
    simp only [List.enumFrom, List.map_cons, List.sum_cons]
    rw [if_neg (by omega), ih (k + 1) (by omega)]

theorem sum_enumFrom_pick {α : Type} (f : α → Nat) :
    ∀ (l : List α) (k i : Nat) (h : i < l.length),
      ((l.enumFrom k).map fun p => if p.1 = k + i then f p.2 else 0).sum
        = f (l.get ⟨i, h⟩) := by
  intro l
  induction l with
  | nil => intro k i h; simp at h
  | cons a t ih =>
    intro k i h
    cases i with
    | zero =>
      simp only [List.enumFrom, List.map_cons, List.sum_cons]
      rw [if_pos (by omega), sum_enumFrom_zero f (k + 0) t (k + 1) (by omega)]
      simp [List.get]
    | succ i2 =>
      simp only [List.enumFrom, List.map_cons, List.sum_cons]
      rw [if_neg (by omega)]
      have hlen : i2 < t.length := by simpa using h
      have := ih (k + 1) i2 hlen
      have heq : ∀ p : Nat × α, (p.1 = k + (i2 + 1)) = (p.1 = k + 1 + i2) := by
        intro p
        congr 1
        omega
      simp only [heq, this, Nat.zero_add]
      rfl

theorem sum_enum_pick {α : Type} (f : α → Nat) (l : List α) (i : Nat)
    (h : i < l.length) :
    ((l.enum.map fun p => if p.1 = i then f p.2 else 0).sum = f (l.get ⟨i, h⟩)) := by
  have := sum_enumFrom_pick f l 0 i h
  simpa [List.enum] using this

theorem mkVehicles_count (rng : Rng) (roads : List Road) (i : Nat)
    (h : i < roads.length) :
    (mkVehicles rng roads).countP (fun v => v.road_id == i)
      = (roads.get ⟨i, h⟩).traffic := by
  unfold mkVehicles
  rw [List.flatMap_def, List.countP_flatten, List.map_map]
  have h1 : ((List.countP fun v => v.road_id == i) ∘ fun p : Nat × Road =>
        (List.range p.2.traffic).map fun k =>
          ({ road_id := p.1
             position := uniformIn 0 1 (rng.vehPosO p.1 k)
             speed := uniformIn (2/100) (8/100) (rng.vehSpeedO p.1 k)
             type := pyChoice ["car", "truck", "bus", "bike"] "" (rng.vehTypeO p.1 k)
             direction := pyChoice [(1 : Int), -1] 1 (rng.vehDirO p.1 k) } : Vehicle))
      = fun p : Nat × Road => if p.1 = i then p.2.traffic else 0 := by
    funext p
    simp only [Function.comp_apply]
    by_cases hpi : p.1 = i
    · rw [if_pos hpi]
      refine Eq.trans (List.countP_eq_length.mpr ?_) (by simp)
      intro v hv
      obtain ⟨k, -, hk⟩ := List.mem_map.mp hv
      rw [← hk]
      simp [hpi]
    · rw [if_neg hpi]
      refine List.countP_eq_zero.mpr ?_
      intro v hv
      obtain ⟨k, -, hk⟩ := List.mem_map.mp hv
      rw [← hk]
      simp [hpi]
  rw [h1]
  exact sum_enum_pick (fun r => r.traffic) roads i h

/-! ### Happiness arithmetic -/

theorem truncQ_bounds (g b : Nat) (hg : g ≤ b) :
    50 ≤ truncQ (50 + ((g : ℚ) / ((max 1 b : Nat) : ℚ)) * 50) ∧
    truncQ (50 + ((g : ℚ) / ((max 1 b : Nat) : ℚ)) * 50) ≤ 100 := by
  have hm1 : (1 : ℚ) ≤ ((max 1 b : Nat) : ℚ) := by exact_mod_cast Nat.le_max_left 1 b
  have hm0 : (0 : ℚ) < ((max 1 b : Nat) : ℚ) := lt_of_lt_of_le one_pos hm1
  have hgm : (g : ℚ) ≤ ((max 1 b : Nat) : ℚ) := by
    exact_mod_cast le_trans hg (Nat.le_max_right 1 b)
  have hr0 : 0 ≤ (g : ℚ) / ((max 1 b : Nat) : ℚ) :=
    div_nonneg (by positivity) hm0.le
  have hr1 : (g : ℚ) / ((max 1 b : Nat) : ℚ) ≤ 1 := (div_le_one hm0).mpr hgm
  have hq50 : (50 : ℚ) ≤ 50 + (g : ℚ) / ((max 1 b : Nat) : ℚ) * 50 := by nlinarith
  have hq100 : 50 + (g : ℚ) / ((max 1 b : Nat) : ℚ) * 50 ≤ 100 := by nlinarith
  unfold truncQ
  rw [if_pos (by linarith : (0 : ℚ) ≤ 50 + (g : ℚ) / ((max 1 b : Nat) : ℚ) * 50)]
  constructor
  · exact Int.le_floor.mpr (by exact_mod_cast hq50)
  · have hf := Int.floor_le_floor hq100
    simpa using hf

/-! ### Normalization facts -/

theorem flattenRadon_no_list :
    ∀ data : InputData, isApiFormat data = false → flattenRadon data = [] := by
  intro data
  induction data with
  | nil => intro _; rfl
  | cons p rest ih =>
    intro h
    simp only [isApiFormat, List.any_cons, Bool.or_eq_false_iff] at h
    cases hv : p.2 with
    | list es => rw [hv] at h; simp at h
    | scalar =>
      simp only [flattenRadon, hv]
      exact ih h.2

/-! ### Concrete inputs for counterexamples and witnesses -/

/-- A two-project input: one function of complexity 1 and one class of
complexity 20, in two distinct projects. -/
def data2 : InputData :=
  [("p1", .list [⟨some "f", some "func", some 1, some "p1/a.py"⟩]),
   ("p2", .list [⟨some "C", some "class", some 20, some "p2/b.py"⟩])]

/-- The flattened raw entries of `data2`. -/
def raw2 : List RawEntry :=
  [⟨some "f", some "func", some 1, some "p1/a.py"⟩,
   ⟨some "C", some "class", some 20, some "p2/b.py"⟩]

/-- The normalized nodes of `data2`. -/
def nodes2 : List Node :=
  [⟨some "f", some "func", 1, "p1/a.py"⟩,
   ⟨some "C", some "class", 20, "p2/b.py"⟩]

/-- The document generated from `data2` under the trivial oracles. -/
def doc2 : CityDoc :=
  match generate_city rng0 hash0 "t" data2 with
  | .ok d => d
  | .error _ => emptyDoc

/-- An input with ten records in ten distinct districts — one more district
than the anchor pool holds. -/
def data10 : InputData :=
  [("r", .list
    [⟨some "f", some "func", some 1, some "d0/a"⟩,
     ⟨some "f", some "func", some 1, some "d1/a"⟩,
     ⟨some "f", some "func", some 1, some "d2/a"⟩,
     ⟨some "f", some "func", some 1, some "d3/a"⟩,
     ⟨some "f", some "func", some 1, some "d4/a"⟩,
     ⟨some "f", some "func", some 1, some "d5/a"⟩,
     ⟨some "f", some "func", some 1, some "d6/a"⟩,
     ⟨some "f", some "func", some 1, some "d7/a"⟩,
     ⟨some "f", some "func", some 1, some "d8/a"⟩,
     ⟨some "f", some "func", some 1, some "d9/a"⟩])]

/-- A flat-shape radon-style input: the single top-level value is a list whose
entries carry no `file` key. -/
def dataA : InputData :=
  [("a.py", .list [⟨some "f", some "function", some 2, none⟩])]

/-- A record whose source file contains no path separator. -/
def nodeSolo : Node := ⟨some "m", some "func", 3, "solo.py"⟩

/-- Modelled from the spec's words, for refinement comparison with the code's
`isApiFormat`: "if any value in the top-level mapping is itself a list whose
items already contain a `file` key, treat as Shape B". -/
def specShapeBDetect (data : InputData) : Bool :=
  data.any fun p => match p.2 with
    | .list es => es.any fun e => e.file.isSome
    | .scalar => false

/-! ### Claim C1 -/

/-- Claim C1, counterexample: `data10` normalizes to ten records in ten
distinct districts, yet only nine buildings are produced — the records of the
tenth district are dropped by the `break` at lines 149-150, refuting "no
record is dropped ... even when the number of distinct districts exceeds the
anchor-pool capacity of 9" (the stats still count ten districts). -/
theorem C1_counterexample :
    (flattenNodes data10).map List.length = .ok 10 ∧
    (generate_city rng0 hash0 "t" data10).map (fun d => d.buildings.length) = .ok 9 ∧
    (generate_city rng0 hash0 "t" data10).map (fun d => d.stats.map fun s => s.district_count)
      = .ok (some 10) := ⟨rfl, rfl, rfl⟩

/-- Claim C1, amended: for every non-empty normalized input whose number of
distinct districts is at most the anchor-pool capacity (9), the number of
buildings equals the number of normalized input records; when the capacity is
exceeded, the records of the excess districts are dropped. -/
theorem C1_theorem (rng : Rng) (pyHash : String → Int) (now : String)
    (data : InputData) (raw : List RawEntry) (nodes : List Node) (doc : CityDoc)
    (hflat : flattenNodes data = .ok raw)
    (hne : raw ≠ [])
    (hnodes : mapE toNode raw = .ok nodes)
    (hgen : generate_city rng pyHash now data = .ok doc)
    (hcap : (groupByDistrict nodes).length ≤ district_centers.length) :
    doc.buildings.length = raw.length := by
  obtain ⟨outs, houts, hdoc⟩ := generate_city_ok hflat hne hnodes hgen
  subst hdoc
  have h1 : (assemble rng now nodes outs).buildings.length = (outs.map List.length).sum := by
    show (outs.flatten.map fun t => t.1).length = _
    rw [List.length_map, List.length_flatten]
  rw [h1]
  have h2 := forall2_sum_map
    (R := fun (p : Nat × (String × List Node)) o =>
      processDistrict rng pyHash (avgOf nodes) p.1 p.2.2 = Except.ok o)
    (f := fun p => p.2.2.length) (g := List.length)
    (fun p o hpo => (processDistrict_length hpo).symm)
    (mapE_ok_forall2 houts)
  rw [← h2]
  have h3 : ((groupByDistrict nodes).take district_centers.length).enum.map
        (fun p => p.2.2.length)
      = (((groupByDistrict nodes).take district_centers.length).enum.map Prod.snd).map
        (fun g => g.2.length) := by
    rw [List.map_map]
    rfl
  rw [h3, List.enum_map_snd, List.take_of_length_le hcap, groupByDistrict_sumLen]
  exact mapE_ok_length hnodes

/-- Claim C1, witness: the two-record two-district input `data2` is within
capacity and yields exactly two buildings. -/
theorem C1_witness : doc2.buildings.length = raw2.length :=
  C1_theorem rng0 hash0 "t" data2 raw2 nodes2 doc2 rfl (by decide) rfl rfl (by decide)

/-! ### Claim C2 -/

/-- Claim C2, counterexample: `data2` places two district centers, yet eight
roads are generated (the loop at line 232 runs over the fixed anchor pool,
not over the placed centers), refuting "exactly N−1 roads" and in particular
the "exactly 1 road" scenario. -/
theorem C2_counterexample :
    (generate_city rng0 hash0 "t" data2).map (fun d => d.stats.map fun s => s.district_count)
      = .ok (some 2) ∧
    (generate_city rng0 hash0 "t" data2).map (fun d => d.roads.length) = .ok 8 ∧
    (8 : Nat) ≠ 2 - 1 := ⟨rfl, rfl, by decide⟩

/-- Claim C2, amended: for every input with at least one normalized record,
exactly `len(district_centers) − 1 = 8` roads are generated — independently
of how many districts were actually placed — and road `i` starts at anchor
center `i` of the fixed pool. -/
theorem C2_theorem (rng : Rng) (pyHash : String → Int) (now : String)
    (data : InputData) (raw : List RawEntry) (nodes : List Node) (doc : CityDoc)
    (hflat : flattenNodes data = .ok raw)
    (hne : raw ≠ [])
    (hnodes : mapE toNode raw = .ok nodes)
    (hgen : generate_city rng pyHash now data = .ok doc) :
    doc.roads.length = district_centers.length - 1 ∧
    ∀ i (h2 : i < doc.roads.length),
      (doc.roads.get ⟨i, h2⟩).x = (district_centers.getD i ⟨0, 0⟩).x ∧
      (doc.roads.get ⟨i, h2⟩).z = (district_centers.getD i ⟨0, 0⟩).z := by
  obtain ⟨outs, houts, hdoc⟩ := generate_city_ok hflat hne hnodes hgen
  subst hdoc
  refine ⟨mkRoads_length rng, ?_⟩
  intro i h2
  have hget : (assemble rng now nodes outs).roads.get ⟨i, h2⟩ = mkRoad rng i :=
    mkRoads_get rng i h2
  rw [hget]
  exact ⟨rfl, rfl⟩

/-- Claim C2, witness: the amended road-network property evaluated on the
two-project input `data2`. -/
theorem C2_witness :
    doc2.roads.length = district_centers.length - 1 ∧
    ∀ i (h2 : i < doc2.roads.length),
      (doc2.roads.get ⟨i, h2⟩).x = (district_centers.getD i ⟨0, 0⟩).x ∧
      (doc2.roads.get ⟨i, h2⟩).z = (district_centers.getD i ⟨0, 0⟩).z :=
  C2_theorem rng0 hash0 "t" data2 raw2 nodes2 doc2 rfl (by decide) rfl rfl

/-! ### Claim C3 -/

/-- Claim C3, confirmed: the number of vehicles equals the sum of the traffic
values of all roads, every vehicle's `road_id` indexes a valid road, and each
road `i` has exactly `traffic` vehicles bound to it. -/
theorem C3_theorem (rng : Rng) (pyHash : String → Int) (now : String)
    (data : InputData) (doc : CityDoc)
    (hgen : generate_city rng pyHash now data = .ok doc) :
    doc.vehicles.length = (doc.roads.map fun r => r.traffic).sum ∧
    (∀ v ∈ doc.vehicles, v.road_id < doc.roads.length) ∧
    ∀ i (h2 : i < doc.roads.length),
      doc.vehicles.countP (fun v => v.road_id == i) = (doc.roads.get ⟨i, h2⟩).traffic := by
  rcases generate_city_shape hgen with hdoc | ⟨nodes, outs, hdoc⟩ <;> subst hdoc
  · refine ⟨rfl, by simp [emptyDoc], ?_⟩
    intro i h2
    simp [emptyDoc] at h2
  · refine ⟨?_, ?_, ?_⟩
    · show (mkVehicles rng (mkRoads rng)).length = ((mkRoads rng).map fun r => r.traffic).sum
      exact mkVehicles_length rng (mkRoads rng)
    · show ∀ v ∈ mkVehicles rng (mkRoads rng), v.road_id < (mkRoads rng).length
      exact mkVehicles_road_id rng (mkRoads rng)
    · intro i h2
      exact mkVehicles_count rng (mkRoads rng) i h2

/-- Claim C3, witness: the vehicle-binding property evaluated on `data2`. -/
theorem C3_witness :
    doc2.vehicles.length = (doc2.roads.map fun r => r.traffic).sum ∧
    (∀ v ∈ doc2.vehicles, v.road_id < doc2.roads.length) ∧
    ∀ i (h2 : i < doc2.roads.length),
      doc2.vehicles.countP (fun v => v.road_id == i) = (doc2.roads.get ⟨i, h2⟩).traffic :=
  C3_theorem rng0 hash0 "t" data2 doc2 rfl

/-! ### Claim C4 -/

/-- Claim C4, confirmed: every placed building's height equals
`max(6, (complexity / meanComplexity) * 30)`, with the mean computed once
over the whole normalized dataset, so every height is at least 6. -/
theorem C4_theorem (rng : Rng) (pyHash : String → Int) (now : String)
    (data : InputData) (raw : List RawEntry) (nodes : List Node) (doc : CityDoc)
    (hflat : flattenNodes data = .ok raw)
    (hne : raw ≠ [])
    (hnodes : mapE toNode raw = .ok nodes)
    (hgen : generate_city rng pyHash now data = .ok doc) :
    ∀ b ∈ doc.buildings,
      b.height = max 6 ((b.complexity : ℚ) / avgOf nodes * 30) ∧ 6 ≤ b.height := by
  obtain ⟨outs, houts, hdoc⟩ := generate_city_ok hflat hne hnodes hgen
  subst hdoc
  intro b hb
  obtain ⟨n, _, d, ctr, cols, i, g, bb, hmk⟩ := assemble_building_src houts hb
  obtain ⟨hcplx, hheight, -, -⟩ := mkNodeOut_props hmk
  constructor
  · rw [hheight, hcplx]
  · rw [hheight]
    exact le_max_left _ _

/-- Claim C4, witness: the height formula evaluated on `data2` (mean
complexity 21/2). -/
theorem C4_witness :
    (∀ b ∈ doc2.buildings,
      b.height = max 6 ((b.complexity : ℚ) / avgOf nodes2 * 30) ∧ 6 ≤ b.height) ∧
    doc2.buildings.length = 2 :=
  ⟨C4_theorem rng0 hash0 "t" data2 raw2 nodes2 doc2 rfl (by decide) rfl rfl, rfl⟩

/-! ### Claim C5 -/

/-- Claim C5, counterexample: for `dataA` — whose single top-level value is a
list of entries with no `file` key — the code detects the API (Shape B)
format, while the claim's detection rule (a list whose items already contain
a `file` key) says Shape A; consequently `generate_city` fails on `dataA`
instead of applying the Shape A defaults. -/
theorem C5_counterexample :
    isApiFormat dataA = true ∧ specShapeBDetect dataA = false ∧
    generate_city rng0 hash0 "t" dataA = .error () := ⟨rfl, rfl, rfl⟩

/-- Claim C5, amended: the input is treated as the grouped Shape B iff some
top-level value is a list — the presence of a `file` key is not checked — and
when no value is a list the Shape A branch contributes no records at all (the
per-entry `anon`/`func`/1 defaulting is unreachable, because it applies only
to list values). -/
theorem C5_theorem (data : InputData) :
    (isApiFormat data = true ↔ ∃ p ∈ data, ∃ es, p.2 = Value.list es) ∧
    (isApiFormat data = false → flattenNodes data = .ok []) := by
  constructor
  · unfold isApiFormat
    rw [List.any_eq_true]
    constructor
    · rintro ⟨p, hp, hmatch⟩
      refine ⟨p, hp, ?_⟩
      cases hv : p.2 with
      | list es => exact ⟨es, rfl⟩
      | scalar => rw [hv] at hmatch; exact absurd hmatch (by simp)
    · rintro ⟨p, hp, es, hes⟩
      exact ⟨p, hp, by rw [hes]⟩
  · intro hfalse
    unfold flattenNodes
    rw [hfalse]
    simp only [Bool.false_eq_true, if_false]
    rw [flattenRadon_no_list data hfalse]

/-- Claim C5, witness: a mapping with a single non-list value is not API
format and normalizes to zero records. -/
theorem C5_witness : flattenNodes [("k", Value.scalar)] = .ok [] :=
  (C5_theorem [("k", Value.scalar)]).2 rfl

/-! ### Claim C6 -/

/-- Claim C6, counterexample: a record whose file `"solo.py"` has no path
separator is grouped under the district keyed `"solo.py"` — the file string
itself — not under a district named `"Mainframe"`. -/
theorem C6_counterexample :
    firstSeg "solo.py" = "solo.py" ∧
    (groupByDistrict [nodeSolo]).map Prod.fst = ["solo.py"] ∧
    ("solo.py" : String) ≠ "Mainframe" := ⟨rfl, rfl, by decide⟩

/-- Claim C6, amended: a record whose source file contains no `/` is grouped,
during district partitioning, under a district keyed by the file string
itself; only the human-readable address of `get_address` falls back to the
project name `"Mainframe"`. -/
theorem C6_theorem (nodes : List Node) (n : Node)
    (h1 : n ∈ nodes) (h2 : '/' ∉ n.file.data) :
    (∃ g ∈ groupByDistrict nodes, g.1 = n.file ∧ n ∈ g.2) ∧
    addressProject n.file = "Mainframe" := by
  have hsplit : pySplitSlash n.file = [n.file] := pySplitSlash_no_slash n.file h2
  constructor
  · obtain ⟨g, hg, hkey, hmem⟩ := groupByDistrict_mem h1
    refine ⟨g, hg, ?_, hmem⟩
    rw [hkey]
    unfold firstSeg
    rw [hsplit]
    rfl
  · unfold addressProject
    rw [hsplit]
    rfl

/-- Claim C6, witness: the separator-free record `nodeSolo` evaluated through
the amended statement. -/
theorem C6_witness :
    (∃ g ∈ groupByDistrict [nodeSolo], g.1 = nodeSolo.file ∧ nodeSolo ∈ g.2) ∧
    addressProject nodeSolo.file = "Mainframe" :=
  C6_theorem [nodeSolo] nodeSolo (by decide) (by decide)

/-! ### Claim C7 -/

/-- Claim C7, counterexample: on the empty input the generator returns the
minimal document whose `stats` is the empty mapping — no field is present at
all, so the stats do not "report zeroed values (e.g. zero density)". -/
theorem C7_counterexample :
    generate_city rng0 hash0 "t" [] = .ok emptyDoc ∧ emptyDoc.stats = none :=
  ⟨rfl, rfl⟩

/-- Claim C7, amended: every input that normalizes to zero records yields,
without error and without reaching the mean-complexity division, the minimal
document whose five collections are all empty and whose stats mapping is
empty (rather than containing zeroed fields). -/
theorem C7_theorem (rng : Rng) (pyHash : String → Int) (now : String)
    (data : InputData)
    (h : flattenNodes data = .ok []) :
    generate_city rng pyHash now data = .ok emptyDoc ∧
    emptyDoc.buildings = [] ∧ emptyDoc.gardens = [] ∧ emptyDoc.roads = [] ∧
    emptyDoc.vehicles = [] ∧ emptyDoc.billboards = [] ∧ emptyDoc.stats = none := by
  refine ⟨?_, rfl, rfl, rfl, rfl, rfl, rfl⟩
  unfold generate_city
  rw [h]
  rfl

/-- Claim C7, witness: the empty mapping `{}` evaluated through the amended
statement. -/
theorem C7_witness :
    generate_city rng0 hash0 "t" [] = .ok emptyDoc ∧
    emptyDoc.buildings = [] ∧ emptyDoc.gardens = [] ∧ emptyDoc.roads = [] ∧
    emptyDoc.vehicles = [] ∧ emptyDoc.billboards = [] ∧ emptyDoc.stats = none :=
  C7_theorem rng0 hash0 "t" [] rfl

/-! ### Claim C8 -/

/-- Claim C8, confirmed: every building's color is selected in the fixed
priority order — complexity above 15 forces the critical red regardless of
the record's kind, otherwise kind `class` forces the corporate blue,
otherwise the default gray — and the label is `Skyscraper` versus `Building`
by the height threshold 20. -/
theorem C8_theorem (rng : Rng) (pyHash : String → Int) (now : String)
    (data : InputData) (raw : List RawEntry) (nodes : List Node) (doc : CityDoc)
    (hflat : flattenNodes data = .ok raw)
    (hne : raw ≠ [])
    (hnodes : mapE toNode raw = .ok nodes)
    (hgen : generate_city rng pyHash now data = .ok doc) :
    ∀ b ∈ doc.buildings, ∃ n ∈ nodes,
      b.complexity = n.complexity ∧
      b.color = (if 15 < n.complexity then "#ff4444"
        else if n.type = some "class" then "#4488ff" else "#888888") ∧
      b.type = (if 20 < b.height then "Skyscraper" else "Building") := by
  obtain ⟨outs, houts, hdoc⟩ := generate_city_ok hflat hne hnodes hgen
  subst hdoc
  intro b hb
  obtain ⟨n, hn, d, ctr, cols, i, g, bb, hmk⟩ := assemble_building_src houts hb
  obtain ⟨hcplx, -, hcolor, htype⟩ := mkNodeOut_props hmk
  exact ⟨n, hn, hcplx, hcolor, htype⟩

/-- Claim C8, witness: on `data2` the complexity-20 `class` record gets the
critical red color (not the corporate blue), the complexity-1 record the
default gray. -/
theorem C8_witness :
    (∀ b ∈ doc2.buildings, ∃ n ∈ nodes2,
      b.complexity = n.complexity ∧
      b.color = (if 15 < n.complexity then "#ff4444"
        else if n.type = some "class" then "#4488ff" else "#888888") ∧
      b.type = (if 20 < b.height then "Skyscraper" else "Building")) ∧
    (doc2.buildings.map fun b => b.color) = ["#888888", "#ff4444"] :=
  ⟨C8_theorem rng0 hash0 "t" data2 raw2 nodes2 doc2 rfl (by decide) rfl rfl, rfl⟩

/-! ### Claim C9 -/

/-- Claim C9: the street component of an address is derived from Python's
per-process salted `hash` builtin (line 95), so it is not a function of the
file path alone: two processes whose `hash` differs on the same path (here
yielding 0 and 1) derive different street names and different full
addresses — the code contradicts the spec's requirement of an explicit
stable hash. -/
theorem C9_theorem :
    streetOf (fun _ => 0) "proj/a.py" ≠ streetOf (fun _ => 1) "proj/a.py" ∧
    get_address (fun _ => 0) "proj/a.py" 0 0 ≠ get_address (fun _ => 1) "proj/a.py" 0 0 := by
  constructor
  · decide
  · decide

/-! ### Claim C10 -/

/-- Claim C10, confirmed: each garden arises from a single per-building
trial, so the garden count never exceeds the building count, and the
happiness score `int(50 + (gardens/buildings) * 50)` always lies in
`[50, 100]` even without an explicit clamp. -/
theorem C10_theorem (rng : Rng) (pyHash : String → Int) (now : String)
    (data : InputData) (doc : CityDoc)
    (hgen : generate_city rng pyHash now data = .ok doc) :
    doc.gardens.length ≤ doc.buildings.length ∧
    ∀ s, doc.stats = some s → 50 ≤ s.happiness ∧ s.happiness ≤ 100 := by
  rcases generate_city_shape hgen with hdoc | ⟨nodes, outs, hdoc⟩ <;> subst hdoc
  · exact ⟨le_refl 0, fun s hs => by simp [emptyDoc] at hs⟩
  · have hlen : (outs.flatten.filterMap fun t => t.2.1).length
        ≤ (outs.flatten.map fun t => t.1).length := by
      rw [List.length_map]
      exact List.length_filterMap_le _ _
    constructor
    · exact hlen
    · intro s hs
      have hR := Option.some.inj hs
      rw [← hR]
      exact truncQ_bounds _ _ hlen

/-- Claim C10, witness: the garden-count and happiness bounds evaluated on
the concrete document generated from `data2`. -/
theorem C10_witness :
    doc2.gardens.length ≤ doc2.buildings.length ∧
    ∀ s, doc2.stats = some s → 50 ≤ s.happiness ∧ s.happiness ≤ 100 :=
  C10_theorem rng0 hash0 "t" data2 doc2 rfl

end CityBuilder
